import Mathlib

/-!
Verification development for the PMS reconciliation engine in
`hotel/pms_systems.py`.

Shallow embedding conventions:
* Python strings that may be absent (JSON null) are `Option String`;
  Python truthiness of such a value is `none`/`some ""` being falsy.
* Machine time is `Nat`.  The module-level `now = datetime.now()`
  captured once at import is the constant `Hotel.now`.
* The Django record store is a `DB` structure holding lists of records.
  `QuerySet.filter` is `List.filter`; `QuerySet.get` yields the unique
  match, raising `DoesNotExist` when there is none and
  `MultipleObjectsReturned` when there are several (Django semantics).
  `QuerySet.update` rewrites every matching row in place; `save` appends
  a fresh row with the next id.  Ids start at 1, so a stored id is never
  Python-falsy.
* Exceptions are the explicit error type `PyErr`; `raise` is an `err`
  result carrying the store state at the moment of the raise (there are
  no transactions, so partial writes persist).
* In `clean_webhook_payload` the source executes a bare
  `raise JSONDecodeError` inside the `except JSONDecodeError` handler.
  In Python, raising a class instantiates it with no arguments, and
  `json.JSONDecodeError.__init__` requires `(msg, doc, pos)`; the
  instantiation therefore raises `TypeError`.  The embedding models this
  outcome as `PyErr.typeError`.
-/

namespace Hotel

/-- Machine time; the source only ever writes the import-time constant. -/
abbrev Time := Nat

/-- The module-level `now = datetime.now()`, captured once at import of
`hotel.pms_systems` and reused verbatim by every later store write. -/
def now : Time := 1700000000

/-- Python truthiness of an optional string: `None` and the empty string
are falsy. -/
def truthyStr : Option String → Bool
  | none => false
  | some s => s ≠ ""

/-- Exceptions that can flow through the reconciliation code, tagged by
their Python class. -/
inductive PyErr where
  | apiError
  | jsonValueError (msg : String)
  | jsonDecodeError
  | typeError
  | doesNotExist (entity : String)
  | multipleObjectsReturned (entity : String)
  | incorrectHotelId (msg : String)
  | valueError (msg : String)
  deriving DecidableEq, Repr

/-- `except APIError` clause test. -/
def isAPIError : PyErr → Bool
  | .apiError => true
  | _ => false

/-- `except IncorrectHotelIdException` clause test. -/
def isIncorrectHotelIdException : PyErr → Bool
  | .incorrectHotelId _ => true
  | _ => false

/-- `except ValueError` clause test.  `json.JSONDecodeError` subclasses
`ValueError` in Python; `JsonValueError` (its definition lives in the
absent `hotel/exceptions.py`) is modelled as a `ValueError` subclass, as
its name and the spec's ValueError-class taxonomy indicate. -/
def isValueErrorClass : PyErr → Bool
  | .valueError _ => true
  | .jsonDecodeError => true
  | .jsonValueError _ => true
  | _ => false

/-- Errors of the spec's MalformedPayloadError family: the code's
unparsable-or-empty webhook body errors (`JsonValueError`,
`json.JSONDecodeError`). -/
def isMalformedPayloadClass : PyErr → Bool
  | .jsonValueError _ => true
  | .jsonDecodeError => true
  | _ => false

/-- Vendor reservation detail as the cleaned payload exposes it
(`stay.HotelId`, `stay.ReservationId`, ...). -/
structure VendorStay where
  HotelId : String
  ReservationId : String
  GuestId : String
  Status : String
  CheckInDate : String
  CheckOutDate : String
  deriving DecidableEq, Repr

/-- Vendor guest detail as the cleaned payload exposes it. -/
structure VendorGuest where
  Name : Option String
  Phone : Option String
  Country : Option String
  deriving DecidableEq, Repr

/-- A stored Guest row. -/
structure GuestRec where
  id : Nat
  name : String
  phone : String
  language : String
  created_at : Option Time
  updated_at : Option Time
  deriving DecidableEq, Repr

/-- A stored Stay row. -/
structure StayRec where
  id : Nat
  hotel_id : Nat
  pms_reservation_id : String
  pms_guest_id : String
  guest_id : Option Nat
  status : String
  checkin : String
  checkout : String
  created_at : Option Time
  updated_at : Option Time
  deriving DecidableEq, Repr

/-- A stored Hotel row (read-only reference data). -/
structure HotelRec where
  id : Nat
  pms_hotel_id : String
  deriving DecidableEq, Repr

/-- The record store.  `nextGuestId`/`nextStayId` model the store's id
sequences; `uuidCounter` models the freshness of `uuid.uuid4()`. -/
structure DB where
  hotels : List HotelRec
  guests : List GuestRec
  stays : List StayRec
  nextGuestId : Nat
  nextStayId : Nat
  uuidCounter : Nat
  deriving DecidableEq, Repr

/-- Result of a store-mutating call: normal return or raised exception,
in both cases carrying the store as left behind (no transactions). -/
inductive UResult (α : Type) where
  | ok (a : α) (db : DB)
  | err (e : PyErr) (db : DB)
  deriving DecidableEq, Repr

/-- The store state a `UResult` left behind. -/
def UResult.db {α : Type} : UResult α → DB
  | .ok _ db => db
  | .err _ db => db

/-- Modelled from the spec: `hotel.models.Language` (not under `src/`) is
a closed enumeration of (country-code, language label) pairs matched
case-insensitively on the country code.  The codes are stored lowercase;
that is what makes the source's `choice[0] == country.lower()`
comparison case-insensitive.  The concrete entries are representative. -/
def Language.choices : List (String × String) :=
  [("en", "English"), ("nl", "Dutch"), ("de", "German"),
   ("fr", "French"), ("es", "Spanish"), ("it", "Italian")]

/-- Python `str.lower()`, lowercasing characterwise; defined
structurally on the string's characters so that concrete applications
evaluate. -/
def pyLower (s : String) : String := ⟨s.data.map Char.toLower⟩

/-- `get_guest_language` (pms_systems.py lines 181-189): falsy country
resolves to the string `"None"`; otherwise the first enumeration entry
whose code equals `country.lower()` gives the label, else `"None"`. -/
def get_guest_language (country : Option String) : String :=
  match country with
  | none => "None"
  | some c =>
    if c = "" then "None"
    else
      match Language.choices.find? (fun choice => choice.1 = pyLower c) with
      | some choice => choice.2
      | none => "None"

/-- `uuid.uuid4()` modelled as a fresh string drawn from a counter. -/
def uuid4 (n : Nat) : String := "uuid-" ++ toString n

/-- The name written to the store:
`uuid.uuid4() if not guest.Name else guest.Name`, returning the possibly
advanced uuid counter. -/
def resolvedName (name : Option String) (ctr : Nat) : String × Nat :=
  match name with
  | none => (uuid4 ctr, ctr + 1)
  | some n => if n = "" then (uuid4 ctr, ctr + 1) else (n, ctr)

/-- `Guest.objects.get(phone=p)` with Django semantics: the unique
match, `Guest.DoesNotExist` on no match, `MultipleObjectsReturned` on
several. -/
def guests_get_by_phone (db : DB) (p : String) : Except PyErr GuestRec :=
  match db.guests.filter (fun g => g.phone = p) with
  | [] => .error (.doesNotExist ("Guest"))
  | [g] => .ok g
  | _ :: _ :: _ => .error (.multipleObjectsReturned ("Guest"))

/-- The row rewrite `queryset.update(name=..., phone=..., language=...,
updated_at=now)` applies to every row matching the phone filter. -/
def guestRowUpdate (p nm language : String) (g : GuestRec) : GuestRec :=
  if g.phone = p then
    { g with name := nm, phone := p, language := language,
             updated_at := some now }
  else g

/-- The store after the update branch of `update_or_create_guest`. -/
def guestUpdateDB (db : DB) (p nm language : String) (ctr : Nat) : DB :=
  { db with guests := db.guests.map (guestRowUpdate p nm language),
            uuidCounter := ctr }

/-- The store after the create branch of `update_or_create_guest`:
`Guest(...).save()` appends a fresh row. -/
def guestCreateDB (db : DB) (p nm language : String) (ctr : Nat) : DB :=
  { db with
    guests := db.guests ++
      [{ id := db.nextGuestId, name := nm, phone := p, language := language,
         created_at := some now, updated_at := none }],
    nextGuestId := db.nextGuestId + 1, uuidCounter := ctr }

/-- `update_or_create_guest` (pms_systems.py lines 149-164).  Resolves
the language, returns `None` without touching the store when the phone
is falsy or the sentinel `"Not available"`; otherwise updates every
Guest row with that phone and re-reads it with `get`, or inserts a new
row and re-reads its id by phone (`None` if the re-read finds
nothing). -/
def update_or_create_guest (db : DB) (guest : VendorGuest) : UResult (Option Nat) :=
  let language := get_guest_language guest.Country
  match guest.Phone with
  | none => UResult.ok none db
  | some p =>
    if p = "" ∨ p = "Not available" then UResult.ok none db
    else
      let guest_from_db := db.guests.filter (fun g => g.phone = p)
      if !guest_from_db.isEmpty then
        let r := resolvedName guest.Name db.uuidCounter
        let db' := guestUpdateDB db p r.1 language r.2
        match guests_get_by_phone db' p with
        | .ok g => UResult.ok (some g.id) db'
        | .error e => UResult.err e db'
      else
        let r := resolvedName guest.Name db.uuidCounter
        let db' := guestCreateDB db p r.1 language r.2
        if (db'.guests.filter (fun g => g.phone = p)).isEmpty then
          UResult.ok none db'
        else
          match guests_get_by_phone db' p with
          | .ok g => UResult.ok (some g.id) db'
          | .error e => UResult.err e db'

/-- `update_or_create_stay` (pms_systems.py lines 166-179).
`Hotel.objects.all().get(pms_hotel_id=...)` raises `Hotel.DoesNotExist`
when no hotel matches and `MultipleObjectsReturned` when several do; the
subsequent `if not hotel_id` guard fires only on a Python-falsy id
(`0`), which a stored row never has.  On a resolved hotel, the Stay with
the vendor reservation id is overwritten, or a new one inserted. -/
def update_or_create_stay (db : DB) (stay : VendorStay) (guest_id : Option Nat) :
    UResult Unit :=
  match db.hotels.filter (fun h => h.pms_hotel_id = stay.HotelId) with
  | [] => UResult.err (.doesNotExist ("Hotel")) db
  | [h] =>
    let hotel_id := h.id
    if hotel_id = 0 then UResult.err (.incorrectHotelId ("Hotel ID not found")) db
    else
      let stay_from_db := db.stays.filter
        (fun s => s.pms_reservation_id = stay.ReservationId)
      if !stay_from_db.isEmpty then
        UResult.ok ()
          { db with
            stays := db.stays.map (fun s =>
              if s.pms_reservation_id = stay.ReservationId then
                { s with hotel_id := hotel_id,
                         pms_reservation_id := stay.ReservationId,
                         pms_guest_id := stay.GuestId,
                         guest_id := guest_id,
                         status := stay.Status,
                         checkin := stay.CheckInDate,
                         checkout := stay.CheckOutDate,
                         updated_at := some now }
              else s) }
      else
        UResult.ok ()
          { db with
            stays := db.stays ++
              [{ id := db.nextStayId, hotel_id := hotel_id,
                 pms_reservation_id := stay.ReservationId,
                 pms_guest_id := stay.GuestId, guest_id := guest_id,
                 status := stay.Status, checkin := stay.CheckInDate,
                 checkout := stay.CheckOutDate,
                 created_at := some now, updated_at := none }],
            nextStayId := db.nextStayId + 1 }
  | _ :: _ :: _ => UResult.err (.multipleObjectsReturned ("Hotel")) db

/-- Outcome of `json.loads(payload, object_hook=...)`: the hooked
attribute-accessible value on success, or a `json.JSONDecodeError` on
unparsable content.  The parser itself is Python stdlib (an external
collaborator), so the cleaning step is parameterised over it; `α` is the
shape the dynamic namedtuple value is consumed at. -/
inductive ParseOutcome (α : Type) where
  | ok (v : α)
  | decodeError
  deriving DecidableEq, Repr

/-- `PMS_Mews.clean_webhook_payload` (pms_systems.py lines 83-91).
Falsy (empty) payload raises `JsonValueError("Incorrect json input")`.
On a `JSONDecodeError` from `json.loads`, the handler executes a bare
`raise JSONDecodeError`: Python instantiates the class with no
arguments, `json.JSONDecodeError.__init__` requires `(msg, doc, pos)`,
and the call raises `TypeError` — modelled as `PyErr.typeError`.
A parsed payload is returned as is. -/
def clean_webhook_payload {α : Type} (loads : String → ParseOutcome α)
    (payload : String) : Except PyErr α :=
  if payload = "" then .error (.jsonValueError ("Incorrect json input"))
  else
    match loads payload with
    | .ok v => .ok v
    | .decodeError => .error .typeError

/-- The `while retry_times < 10` loop of `make_api_call_with_retry`
(pms_systems.py lines 192-209), with the loop bound carried as the
structural argument `fuel = 10 - retry_times` (so `fuel = 0` is exactly
the loop exit with `retry_times == 10`, where the source raises
`APIError`).  Each iteration invokes the remote call; an `APIError` from
the call or from the cleaning step increments `retry_times` and retries,
any other exception propagates at once, and a cleaned value breaks out
of the loop and is returned.  The second component counts the
remote-call invocations performed. -/
def retryGo {α : Type} (clean : String → Except PyErr α)
    (request : Nat → Except PyErr String) :
    Nat → Nat → Except PyErr α × Nat
  | 0, _retry_times => (.error .apiError, 0)
  | fuel + 1, retry_times =>
    match request retry_times with
    | .error e =>
      if isAPIError e then
        let r := retryGo clean request fuel (retry_times + 1)
        (r.1, r.2 + 1)
      else (.error e, 1)
    | .ok raw =>
      match clean raw with
      | .ok v => (.ok v, 1)
      | .error e =>
        if isAPIError e then
          let r := retryGo clean request fuel (retry_times + 1)
          (r.1, r.2 + 1)
        else (.error e, 1)

/-- `make_api_call_with_retry`, entered with `retry_times = 0` (hence
fuel 10).  The adapter resolved by `get_pms(pms_name)` is represented by
its cleaning function; the remote call is a map from attempt number to
outcome. -/
def make_api_call_with_retry {α : Type} (clean : String → Except PyErr α)
    (request : Nat → Except PyErr String) : Except PyErr α × Nat :=
  retryGo clean request 10 0

/-- `event.Value` of a Mews webhook event. -/
structure EventValue where
  ReservationId : String
  deriving DecidableEq, Repr

/-- One entry of the webhook payload's `Events` list. -/
structure Event where
  Value : EventValue
  deriving DecidableEq, Repr

/-- The cleaned webhook payload consumed by `handle_webhook`. -/
structure WebhookData where
  Events : List Event
  deriving DecidableEq, Repr

/-- The external world `handle_webhook` talks to:
`get_reservation_details` and `get_guest_details` keyed by their
argument and by attempt number, plus the `json.loads` behaviour for each
payload shape the dynamic cleaning step is consumed at. -/
structure ApiEnv where
  reservation_details : String → Nat → Except PyErr String
  guest_details : String → Nat → Except PyErr String
  loadsStay : String → ParseOutcome VendorStay
  loadsGuest : String → ParseOutcome VendorGuest

/-- The body of `handle_webhook`'s per-event `try` block (pms_systems.py
lines 95-100): fetch the reservation detail, fetch the guest detail,
upsert the guest, then upsert the stay.  Remote calls do not touch the
store; store writes made before a later raise persist. -/
def handle_event (env : ApiEnv) (db : DB) (event : Event) : UResult Unit :=
  match (make_api_call_with_retry (clean_webhook_payload env.loadsStay)
      (env.reservation_details event.Value.ReservationId)).1 with
  | .error e => UResult.err e db
  | .ok stay =>
    match (make_api_call_with_retry (clean_webhook_payload env.loadsGuest)
        (env.guest_details stay.GuestId)).1 with
    | .error e => UResult.err e db
    | .ok guest =>
      match update_or_create_guest db guest with
      | .err e db' => UResult.err e db'
      | .ok guest_id db1 => update_or_create_stay db1 stay guest_id

/-- The event loop of `PMS_Mews.handle_webhook` (pms_systems.py lines
93-109): `IncorrectHotelIdException` and `ValueError` are swallowed and
the loop continues; any other exception returns `False` at once; an
exhausted loop returns `True`. -/
def handle_webhook_go (env : ApiEnv) : DB → List Event → Bool × DB
  | db, [] => (true, db)
  | db, event :: rest =>
    match handle_event env db event with
    | .ok _ db' => handle_webhook_go env db' rest
    | .err e db' =>
      if isIncorrectHotelIdException e then handle_webhook_go env db' rest
      else if isValueErrorClass e then handle_webhook_go env db' rest
      else (false, db')

/-- `PMS_Mews.handle_webhook` on a cleaned payload. -/
def handle_webhook (env : ApiEnv) (db : DB) (webhook_data : WebhookData) :
    Bool × DB :=
  handle_webhook_go env db webhook_data.Events

/-! Concrete fixtures used to evaluate the model. -/

/-- A store holding one hotel (internal id 1, vendor id `"H1"`) and no
guests or stays. -/
def db0 : DB :=
  { hotels := [{ id := 1, pms_hotel_id := "H1" }], guests := [], stays := [],
    nextGuestId := 1, nextStayId := 1, uuidCounter := 0 }

/-- A vendor stay referencing the known hotel `"H1"`. -/
def stayK : VendorStay :=
  { HotelId := "H1", ReservationId := "R1", GuestId := "G1",
    Status := "Confirmed", CheckInDate := "2026-10-13",
    CheckOutDate := "2026-10-15" }

/-- A vendor stay referencing the unknown hotel `"H404"`. -/
def stayU : VendorStay :=
  { HotelId := "H404", ReservationId := "R404", GuestId := "G2",
    Status := "Confirmed", CheckInDate := "2026-10-13",
    CheckOutDate := "2026-10-15" }

/-- Vendor guest Alice with phone `"5551"`. -/
def gA : VendorGuest :=
  { Name := some "Alice", Phone := some "5551", Country := some "en" }

/-- Vendor guest Bob with the same phone `"5551"` as Alice. -/
def gB : VendorGuest :=
  { Name := some "Bob", Phone := some "5551", Country := some "en" }

/-- Vendor guest detail for guest id `"G2"`, phone `"5552"`. -/
def gG2 : VendorGuest :=
  { Name := some "Bob", Phone := some "5552", Country := some "de" }

/-- The store after upserting `stayK` into `db0` once. -/
def db_after_first : DB := (update_or_create_stay db0 stayK none).db

/-- The store after upserting `stayK` a second time with identical
fields. -/
def db_after_second : DB := (update_or_create_stay db_after_first stayK none).db

/-- The Stay row created by the first upsert of `stayK`. -/
def sRec1 : StayRec :=
  { id := 1, hotel_id := 1, pms_reservation_id := "R1", pms_guest_id := "G1",
    guest_id := none, status := "Confirmed", checkin := "2026-10-13",
    checkout := "2026-10-15", created_at := some now, updated_at := none }

/-! Theorems settling the claims. -/

/-- C1: the claim states that a vendor stay whose hotel id resolves to
no known Hotel makes `update_or_create_stay` raise
`IncorrectHotelIdError` and leave the Stay table unchanged.  On the
code, `Hotel.objects.all().get(pms_hotel_id=...)` raises
`Hotel.DoesNotExist` before the dead `if not hotel_id` guard can ever
raise `IncorrectHotelIdException`; the raised class is neither
`IncorrectHotelIdException` nor a `ValueError`, so the caller's
skip-handlers do not recognise it.  The store is indeed unchanged.  This
theorem evaluates the code at the failing input `stayU` over `db0`. -/
theorem C1_unknown_hotel_raises_does_not_exist :
    update_or_create_stay db0 stayU none =
      UResult.err (.doesNotExist ("Hotel")) db0 ∧
    isIncorrectHotelIdException (.doesNotExist ("Hotel")) = false ∧
    isValueErrorClass (.doesNotExist ("Hotel")) = false :=
  ⟨rfl, rfl, rfl⟩

/-- C4: the claim states that reconciling the same vendor stay twice
with identical fields yields exactly one Stay record with its
updated-timestamp advancing and all other fields unchanged.  On the
code, both writes stamp the module-level constant `now` captured at
import: the single resulting row's `updated_at` after the second
reconciliation equals its `created_at` from the first, so the timestamp
does not advance.  The single-record and fields-unchanged parts hold. -/
theorem C4_second_reconciliation_stamps_import_time :
    db_after_first.stays = [sRec1] ∧
    db_after_second.stays = [{ sRec1 with updated_at := some now }] ∧
    (db_after_second.stays.map (fun s => s.updated_at)) = [some now] ∧
    (db_after_second.stays.map (fun s => s.created_at)) = [some now] :=
  ⟨rfl, rfl, rfl, rfl⟩

/-- C5: a vendor guest whose phone is absent, empty, or the sentinel
`"Not available"` makes `update_or_create_guest` return `None` and
leaves the Guest table (indeed the whole store) unchanged. -/
theorem C5_no_phone_guest_not_persisted (db : DB) (g : VendorGuest)
    (h : g.Phone = none ∨ g.Phone = some "" ∨ g.Phone = some ("Not available")) :
    update_or_create_guest db g = UResult.ok none db := by
  rcases h with h | h | h <;> simp [update_or_create_guest, h]

/-- Witness for C5 at the concrete sentinel-phone guest. -/
theorem C5_no_phone_guest_not_persisted_witness :
    update_or_create_guest db0
      { Name := some "Eve", Phone := some ("Not available"),
        Country := none } = UResult.ok none db0 :=
  C5_no_phone_guest_not_persisted db0 _ (Or.inr (Or.inr rfl))

/-- C9: on a cleaned webhook payload whose `Events` list is empty,
`handle_webhook` returns `True` and the store is returned unchanged,
whatever the remote world would have answered (the result does not
depend on `env`, so no remote call can have been consulted). -/
theorem C9_empty_events_returns_true_unchanged (env : ApiEnv) (db : DB) :
    handle_webhook env db { Events := [] } = (true, db) :=
  rfl

/-- Witness for C9 at a concrete remote world and store. -/
theorem C9_empty_events_returns_true_unchanged_witness :
    handle_webhook
      { reservation_details := fun _ _ => .error .apiError,
        guest_details := fun _ _ => .error .apiError,
        loadsStay := fun _ => ParseOutcome.decodeError,
        loadsGuest := fun _ => ParseOutcome.decodeError }
      db0 { Events := [] } = (true, db0) :=
  C9_empty_events_returns_true_unchanged _ db0

/-- A `json.loads` behaviour that rejects every body. -/
def loadsReject : String → ParseOutcome Nat := fun _ => ParseOutcome.decodeError

/-- A `json.loads` behaviour that parses the body `"ok-body"` to the
value `7` and rejects everything else. -/
def loadsSeven : String → ParseOutcome Nat :=
  fun s => if s = "ok-body" then ParseOutcome.ok 7 else ParseOutcome.decodeError

/-- C7: the claim states that `clean_webhook_payload` fails with a
MalformedPayloadError-class error on empty input and on unparsable
content, and returns the parsed structure on parsable JSON.  On the
code, the empty-input and parsable cases behave as claimed
(`JsonValueError` is the malformed-body error), but on unparsable
content the handler's bare `raise JSONDecodeError` instantiates the
class without its required `(msg, doc, pos)` arguments, so a `TypeError`
— not a MalformedPayloadError-class error — is raised.  This theorem
evaluates the code at the failing input, the non-empty unparsable body
`"not-json"`. -/
theorem C7_unparsable_body_raises_type_error :
    clean_webhook_payload loadsReject "" =
      .error (.jsonValueError ("Incorrect json input")) ∧
    isMalformedPayloadClass (.jsonValueError ("Incorrect json input")) = true ∧
    clean_webhook_payload loadsReject "not-json" = .error .typeError ∧
    isMalformedPayloadClass .typeError = false ∧
    clean_webhook_payload loadsSeven "ok-body" = .ok 7 :=
  ⟨rfl, rfl, rfl, rfl, rfl⟩

/-- If every remote attempt fails with `APIError`, the retry loop makes
exactly `fuel` further remote calls and ends by raising `APIError`. -/
theorem retryGo_all_api_fail {α : Type} (clean : String → Except PyErr α)
    (request : Nat → Except PyErr String)
    (h : ∀ k, request k = .error .apiError) :
    ∀ fuel rt, retryGo clean request fuel rt = (.error .apiError, fuel) := by
  intro fuel
  induction fuel with
  | zero => intro rt; rfl
  | succ n ih => intro rt; simp [retryGo, h rt, isAPIError, ih (rt + 1)]

/-- C3: when the remote call fails with the vendor-API-unavailable
signal (`APIError`) on every attempt, `make_api_call_with_retry` invokes
the remote call exactly 10 times, then raises `APIError` to the caller;
no cleaned result is produced (so the callers perform no
reconciliation). -/
theorem C3_retry_exhaustion_ten_calls_then_api_error {α : Type}
    (clean : String → Except PyErr α) (request : Nat → Except PyErr String)
    (h : ∀ k, request k = .error .apiError) :
    make_api_call_with_retry clean request = (.error .apiError, 10) :=
  retryGo_all_api_fail clean request h 10 0

/-- Witness for C3 with a remote call that always signals `APIError`. -/
theorem C3_retry_exhaustion_ten_calls_then_api_error_witness :
    make_api_call_with_retry (fun _ => (.error .apiError : Except PyErr Nat))
      (fun _ => .error .apiError) = (.error .apiError, 10) :=
  C3_retry_exhaustion_ten_calls_then_api_error _ _ (fun _ => rfl)

/-- If the first `n` attempts fail with `APIError`, attempt `n` fetches
a body whose cleaning raises a non-`APIError` exception, then the retry
loop stops right there: the exception propagates and exactly `n + 1`
remote calls were made. -/
theorem retryGo_clean_error {α : Type} (clean : String → Except PyErr α)
    (request : Nat → Except PyErr String) (raw : String) (e : PyErr)
    (he : isAPIError e = false) (hclean : clean raw = .error e) :
    ∀ n rt fuel, n < fuel →
      (∀ j, j < n → request (rt + j) = .error .apiError) →
      request (rt + n) = .ok raw →
      retryGo clean request fuel rt = (.error e, n + 1) := by
  intro n
  induction n with
  | zero =>
    intro rt fuel hf _hj hok
    match fuel, hf with
    | f + 1, _ =>
      have h0 : request rt = .ok raw := by simpa using hok
      simp [retryGo, h0, hclean, he]
  | succ m ih =>
    intro rt fuel hf hj hok
    match fuel, hf with
    | f + 1, hf =>
      have h0 : request rt = .error .apiError := by
        simpa using hj 0 (Nat.succ_pos m)
      have hok1 : request (rt + 1 + m) = .ok raw := by
        rw [show rt + 1 + m = rt + (m + 1) by omega]; exact hok
      have hj1 : ∀ j, j < m → request (rt + 1 + j) = .error .apiError := by
        intro j hjm
        rw [show rt + 1 + j = rt + (j + 1) by omega]
        exact hj (j + 1) (by omega)
      have hrec := ih (rt + 1) f (by omega) hj1 hok1
      simp [retryGo, h0, isAPIError, hrec]

/-- C10: only the vendor-API-unavailable signal triggers a retry.  If
the remote call succeeds on attempt `k` (after `k` `APIError` failures)
and the adapter's cleaning step raises any non-`APIError` exception on
the fetched body, `make_api_call_with_retry` propagates that exception
to the caller at once: exactly `k + 1` remote calls happen, with no
further attempts. -/
theorem C10_clean_error_propagates_without_retry {α : Type}
    (clean : String → Except PyErr α) (request : Nat → Except PyErr String)
    (k : Nat) (raw : String) (e : PyErr) (hk : k < 10)
    (hj : ∀ j, j < k → request j = .error .apiError)
    (hok : request k = .ok raw) (hclean : clean raw = .error e)
    (he : isAPIError e = false) :
    make_api_call_with_retry clean request = (.error e, k + 1) := by
  have hj0 : ∀ j, j < k → request (0 + j) = .error .apiError := by
    intro j hjk; rw [Nat.zero_add]; exact hj j hjk
  have hok0 : request (0 + k) = .ok raw := by rw [Nat.zero_add]; exact hok
  exact retryGo_clean_error clean request raw e he hclean k 0 10 hk hj0 hok0

/-- Witness for C10: a first-attempt success whose body fails cleaning
with `JsonValueError` (an empty response body) propagates at once, after
a single remote call. -/
theorem C10_clean_error_propagates_without_retry_witness :
    make_api_call_with_retry
      (fun _ => (.error (.jsonValueError ("Incorrect json input")) : Except PyErr Nat))
      (fun _ => .ok ("body")) =
      (.error (.jsonValueError ("Incorrect json input")), 1) :=
  C10_clean_error_propagates_without_retry _ _ 0 "body" _ (by omega)
    (fun j hj => absurd hj (by omega)) rfl rfl rfl

/-- The remote world of the C2 scenario: every remote call succeeds on
its first attempt; reservation `"R1"` resolves to `stayK` (known hotel
`"H1"`), reservation `"R404"` resolves to `stayU` (unknown hotel
`"H404"`), and both guest details parse. -/
def envC2 : ApiEnv :=
  { reservation_details := fun rid _attempt => .ok ("res-" ++ rid),
    guest_details := fun gid _attempt => .ok ("guest-" ++ gid),
    loadsStay := fun raw =>
      if raw = "res-R1" then .ok stayK
      else if raw = "res-R404" then .ok stayU
      else .decodeError,
    loadsGuest := fun raw =>
      if raw = "guest-G1" then .ok gA
      else if raw = "guest-G2" then .ok gG2
      else .decodeError }

/-- A cleaned webhook payload with exactly two events: the
unknown-hotel reservation `"R404"` and the known-hotel reservation
`"R1"`. -/
def c2payload : WebhookData :=
  { Events := [{ Value := { ReservationId := "R404" } },
               { Value := { ReservationId := "R1" } }] }

/-- C2: the claim states that on a two-event payload — one event
resolving to a known hotel, the other to an unknown hotel, all remote
calls succeeding — `handle_webhook` returns `True`, exactly one Stay is
created, and the unknown-hotel event is silently skipped.  On the code,
the unknown-hotel event raises `Hotel.DoesNotExist` (not the
`IncorrectHotelIdException` the loop catches), which falls through to
`except Exception: return False`: the batch aborts with `False` and, the
unknown-hotel event coming first, no Stay is ever written (the guest
upsert committed before the abort does persist).  This theorem evaluates
the code at the failing input `c2payload` over `db0`. -/
theorem C2_unknown_hotel_event_aborts_batch :
    (handle_webhook envC2 db0 c2payload).1 = false ∧
    (handle_webhook envC2 db0 c2payload).2.stays = [] ∧
    (handle_webhook envC2 db0 c2payload).2.guests.length = 1 :=
  ⟨rfl, rfl, rfl⟩

/-- Number of Guest rows holding a given phone number. -/
def phoneCount (db : DB) (p : String) : Nat :=
  db.guests.countP (fun g => g.phone = p)

/-- The spec's Guest invariant: at most one Guest record per non-empty
phone number. -/
def GuestPhoneUnique (db : DB) : Prop :=
  ∀ p, p ≠ "" → phoneCount db p ≤ 1

/-- The queryset row rewrite never changes a row's phone: rows matching
the filter get the same phone written back, others are untouched. -/
theorem guestRowUpdate_phone (p nm lang : String) (g : GuestRec) :
    (guestRowUpdate p nm lang g).phone = g.phone := by
  unfold guestRowUpdate
  by_cases h : g.phone = p <;> simp [h]

/-- The update branch leaves every phone's row count unchanged. -/
theorem phoneCount_guestUpdateDB (db : DB) (p nm lang : String) (ctr : Nat)
    (q : String) : phoneCount (guestUpdateDB db p nm lang ctr) q = phoneCount db q := by
  unfold phoneCount guestUpdateDB
  rw [List.countP_map]
  apply List.countP_congr
  intro g _
  simp [Function.comp, guestRowUpdate_phone]

/-- The create branch adds one row with phone `p` and leaves every other
phone's count unchanged. -/
theorem phoneCount_guestCreateDB (db : DB) (p nm lang : String) (ctr : Nat)
    (q : String) :
    phoneCount (guestCreateDB db p nm lang ctr) q =
      phoneCount db q + (if p = q then 1 else 0) := by
  unfold phoneCount guestCreateDB
  rw [List.countP_append]
  by_cases h : p = q <;> simp [h]

/-- One `update_or_create_guest` call preserves the at-most-one-row-per-
phone invariant, whatever its outcome. -/
theorem update_or_create_guest_preserves_unique (db : DB) (g : VendorGuest)
    (h : GuestPhoneUnique db) :
    GuestPhoneUnique ((update_or_create_guest db g).db) := by
  unfold update_or_create_guest
  cases hp : g.Phone with
  | none => exact h
  | some p =>
    dsimp only
    split
    · exact h
    · split
      · have hu : GuestPhoneUnique
            (guestUpdateDB db p (resolvedName g.Name db.uuidCounter).1
              (get_guest_language g.Country)
              (resolvedName g.Name db.uuidCounter).2) := by
          intro q hq
          rw [phoneCount_guestUpdateDB]
          exact h q hq
        split <;> exact hu
      · rename_i hemp
        have hemp' : (db.guests.filter (fun g2 => g2.phone = p)).isEmpty = true := by
          revert hemp
          cases (db.guests.filter (fun g2 => g2.phone = p)).isEmpty <;> simp
        have hzero : phoneCount db p = 0 := by
          rw [phoneCount, List.countP_eq_length_filter,
            List.isEmpty_iff.mp hemp']
          rfl
        have hc : GuestPhoneUnique
            (guestCreateDB db p (resolvedName g.Name db.uuidCounter).1
              (get_guest_language g.Country)
              (resolvedName g.Name db.uuidCounter).2) := by
          intro q hq
          rw [phoneCount_guestCreateDB]
          by_cases hpq : p = q
          · rw [← hpq, hzero]
            simp
          · simpa [hpq] using h q hq
        split
        · exact hc
        · split <;> exact hc

/-- A sequence of guest reconciliations, each seeing the store the
previous one left behind. -/
def run_guest_upserts (db : DB) (gs : List VendorGuest) : DB :=
  gs.foldl (fun d g => (update_or_create_guest d g).db) db

/-- C6: after any sequence of `update_or_create_guest` calls starting
from a store satisfying it, the at-most-one-Guest-per-non-empty-phone
invariant still holds; and reconciling Alice then Bob, who share phone
`"5551"`, yields exactly one Guest row carrying the latest name
`"Bob"`. -/
theorem C6_phone_unique_invariant_and_dedup :
    (∀ db gs, GuestPhoneUnique db →
      GuestPhoneUnique (run_guest_upserts db gs)) ∧
    (run_guest_upserts db0 [gA, gB]).guests =
      [{ id := 1, name := "Bob", phone := "5551", language := "English",
         created_at := some now, updated_at := some now }] := by
  constructor
  · intro db gs
    induction gs generalizing db with
    | nil => intro h; simpa [run_guest_upserts] using h
    | cons g rest ih =>
      intro h
      have h1 := update_or_create_guest_preserves_unique db g h
      simpa [run_guest_upserts] using ih _ h1
  · rfl

/-- Witness for C6: the invariant instantiated after the concrete
Alice-then-Bob run, starting from the empty guest table of `db0`. -/
theorem C6_phone_unique_invariant_and_dedup_witness :
    phoneCount (run_guest_upserts db0 [gA, gB]) "5551" ≤ 1 :=
  (C6_phone_unique_invariant_and_dedup.1 db0 [gA, gB]
    (fun p _ => by simp [phoneCount, db0])) "5551" (by decide)

/-- C8: `get_guest_language` resolves an absent or empty country code to
the `"None"` label; a code whose lowercasing matches no enumeration
entry to the `"None"` label; and a code whose lowercasing matches an
entry to that entry's label — so the match is case-insensitive in the
country code.  The function is total, so it never raises. -/
theorem C8_language_resolution_with_fallback :
    get_guest_language none = "None" ∧
    get_guest_language (some "") = "None" ∧
    (∀ c, Language.choices.find? (fun q => q.1 = pyLower c) = none →
      get_guest_language (some c) = "None") ∧
    (∀ c entry, c ≠ "" →
      Language.choices.find? (fun q => q.1 = pyLower c) = some entry →
      get_guest_language (some c) = entry.2) ∧
    (∀ c1 c2, c1 ≠ "" → c2 ≠ "" → pyLower c1 = pyLower c2 →
      get_guest_language (some c1) = get_guest_language (some c2)) := by
  refine ⟨rfl, rfl, ?_, ?_, ?_⟩
  · intro c h
    by_cases hc : c = ""
    · simp [get_guest_language, hc]
    · simp [get_guest_language, hc, h]
  · intro c entry hc h
    simp [get_guest_language, hc, h]
  · intro c1 c2 h1 h2 hl
    simp [get_guest_language, h1, h2, hl]

/-- Witness for C8: the uppercase code `"EN"` resolves to `"English"`
through the lowercase enumeration entry, and the unknown code `"xx"`
falls back to `"None"`. -/
theorem C8_language_resolution_with_fallback_witness :
    get_guest_language (some "EN") = "English" ∧
    get_guest_language (some "xx") = "None" :=
  ⟨C8_language_resolution_with_fallback.2.2.2.1 "EN" ("en", "English")
      (by decide) (by decide),
    C8_language_resolution_with_fallback.2.2.1 "xx" (by decide)⟩

end Hotel
